import Mathlib

/-
Verification of the orchestration layer of protoc-gen-grpc-gateway-ts
(src/generator/generator.go): the functions New, Generate, generateFile and
generateFetchModule, shallowly embedded in Lean.

External collaborators of this layer (the registry package, the data package's
File IR, the text/template renderer, and the filesystem) are embedded as
follows: parts whose behaviour the claims depend on but whose code is not part
of the verified source are modelled from the specification (each such
definition carries a doc comment saying so); parts treated as opaque
collaborators (the registry's Analyse, the two templates, the filesystem) are
function parameters or function-valued fields, so every theorem quantifies
over their behaviour.
-/

namespace ProtocGenGrpcGatewayTs

/-- Modelled from the spec: a Method of the data package's Service IR. The spec
(section 3) gives a Method a name and optional HTTP-binding metadata; absence of
the binding means the method is not externally callable over HTTP. Only the
presence of the binding matters to the verified layer. -/
structure Method where
  name : String
  hasHTTPBinding : Bool
deriving DecidableEq

/-- Modelled from the spec: a Service of the data package's File IR, a name and
a list of methods (spec section 3). -/
structure Service where
  name : String
  methods : List Method
deriving DecidableEq

/-- Modelled from the spec: data.Services.NeedsFetchModule (data package, not
part of the verified source). Per the spec (section 4.3), a file needs the
shared fetch helper iff it contains at least one Service with at least one
HTTP-bound Method. -/
def needsFetchModule (services : List Service) : Bool :=
  services.any fun s => s.methods.any fun m => m.hasHTTPBinding

/-- The data package's File IR as consumed by the generator: proto file name,
target TypeScript file name, the declaration lists whose emptiness decides
IsEmpty, the services (for the fetch-helper decision) and the
EnableStylingCheck flag the generator copies onto it. Messages and enums are
kept only by name; the verified layer never inspects them further. -/
structure File where
  Name : String
  TSFileName : String
  Messages : List String
  Enums : List String
  Services : List Service
  EnableStylingCheck : Bool
deriving DecidableEq

/-- Modelled from the spec: data.File.IsEmpty (data package, not part of the
verified source). Per the spec (section 8), a file is empty iff it declares
zero messages, zero enums and zero services. -/
def File.IsEmpty (f : File) : Bool :=
  f.Messages.isEmpty && f.Enums.isEmpty && f.Services.isEmpty

/-- The Go zero value of data.File, as built by generateFetchModule's
`&data.File{EnableStylingCheck: ...}` literal before the flag is set. -/
def emptyFile : File :=
  { Name := "", TSFileName := "", Messages := [], Enums := [], Services := [],
    EnableStylingCheck := false }

/-- One entry of plugin.CodeGeneratorResponse: an output file name and its
content (the insertion point is always nil in this generator and is omitted). -/
structure ResponseFile where
  name : String
  content : String
deriving DecidableEq

/-- plugin.CodeGeneratorResponse: the list of generated files. -/
structure Response where
  file : List ResponseFile
deriving DecidableEq

/-- plugin.CodeGeneratorRequest, restricted to the field this layer reads
through the registry: the compiler's file-to-generate list. -/
structure CodeGeneratorRequest where
  fileToGenerate : List String
deriving DecidableEq

/-- The registry as seen by the generator: the fetch-module output directory
and filename options, and the Analyse step producing the File IR list. Analyse
is an opaque collaborator (the registry package is not part of the verified
source), so it is a function-valued field that theorems quantify over. -/
structure Registry where
  FetchModuleDirectory : String
  FetchModuleFilename : String
  Analyse : CodeGeneratorRequest → Except String (List File)

/-- Modelled from the spec: registry.Registry.IsFileToGenerate (registry
package, not part of the verified source). Per the spec (section 4.3), a file
is to generate iff its name is in the compiler's file-to-generate set. -/
def Registry.IsFileToGenerate (req : CodeGeneratorRequest) (name : String) : Bool :=
  req.fileToGenerate.contains name

/-- TypeScriptGRPCGatewayGenerator: the registry and the styling-check flag. -/
structure TypeScriptGRPCGatewayGenerator where
  Registry : Registry
  EnableStylingCheck : Bool

/-- A text/template as the generator uses it: executing it on a File IR either
yields the rendered text or fails. Opaque collaborator. -/
def Template : Type := File → Except String String

/-- EnableStylingCheckOption, the option name for EnableStylingCheck. -/
def EnableStylingCheckOption : String := "enable_styling_check"

/-- New returns an initialised generator. registry construction
(registry.NewRegistry, not part of the verified source) is an opaque
collaborator passed as a function; the params map is a partial map from option
names to values. The styling flag is computed exactly as in the source:
false unless the option key is present, in which case it is the result of
comparing the value with the literal string "true". -/
def New (newRegistry : (String → Option String) → Except String Registry)
    (paramsMap : String → Option String) :
    Except String TypeScriptGRPCGatewayGenerator :=
  match newRegistry paramsMap with
  | .error err => .error ("error instantiating a new registry: " ++ err)
  | .ok registry =>
      let enableStylingCheck :=
        match paramsMap EnableStylingCheckOption with
        | some v => v == "true"
        | none => false
      .ok { Registry := registry, EnableStylingCheck := enableStylingCheck }

/-- Model of Go strings.TrimSpace on one side: drop leading whitespace
characters from a character list. -/
def trimLeftChars : List Char → List Char
  | [] => []
  | c :: cs => if c.isWhitespace then trimLeftChars cs else c :: cs

/-- Model of Go strings.TrimSpace on a character list: drop leading whitespace,
then drop trailing whitespace (via reversal). -/
def trimSpaceList (l : List Char) : List Char :=
  (trimLeftChars (trimLeftChars l).reverse).reverse

/-- Model of Go strings.TrimSpace: remove leading and trailing whitespace from
a string (whitespace per Char.isWhitespace, covering the ASCII whitespace the
generator's outputs contain). -/
def trimSpace (s : String) : String :=
  ⟨trimSpaceList s.data⟩

/-- Model of Go path/filepath.Join on two components: join with the path
separator, treating an empty component as absent (for the clean relative
components the generator's options hold, Join's subsequent Clean is the
identity). -/
def filepathJoin (dir file : String) : String :=
  if dir = "" then file else if file = "" then dir else dir ++ "/" ++ file

/-- Model of Go path/filepath.ToSlash: on a platform whose separator is the
slash this is the identity. -/
def filepathToSlash (path : String) : String := path

/-- The result of the os.Stat probe of the helper's target path: the path does
not exist (os.ErrNotExist), it exists, or the probe fails for another reason. -/
inductive StatResult where
  | notExist
  | found
  | statError (e : String)
deriving DecidableEq

/-- The filesystem as generateFetchModule probes it: a stat result and a read
result per path. Opaque collaborator. -/
structure FileSystem where
  stat : String → StatResult
  readFile : String → Except String String

/-- generateFile: for an empty File IR write the fixed placeholder
"export default \x7b\x7d\n" without invoking the template, otherwise execute the
template (a failure is wrapped with the proto file name); the response entry is
the TSFileName with the trimmed buffer content. -/
def generateFile (fileData : File) (tmpl : Template) : Except String ResponseFile :=
  let w : Except String String :=
    if fileData.IsEmpty then .ok "export default \x7b\x7d\n"
    else tmpl fileData
  match w with
  | .error err =>
      .error ("error generating ts file for " ++ fileData.Name ++ ": " ++ err)
  | .ok rendered =>
      .ok { name := fileData.TSFileName, content := trimSpace rendered }

/-- The helper module's output path: the slash-normalised join of the
configured fetch-module directory and filename. -/
def fetchModuleFileName (t : TypeScriptGRPCGatewayGenerator) : String :=
  filepathToSlash (filepathJoin t.Registry.FetchModuleDirectory t.Registry.FetchModuleFilename)

/-- generateFetchModule: render the fetch template on a zero File IR carrying
only the EnableStylingCheck flag (a failure is wrapped with the path), trim the
result, then probe the target path: a stat failure other than absence is
returned as is; if the path exists, read it (a read failure is returned as is)
and compare with the trimmed content; on absence the origin content is the
empty string. Identical content yields none (nothing contributed), otherwise
the entry with the trimmed content. -/
def generateFetchModule (t : TypeScriptGRPCGatewayGenerator) (tmpl : Template)
    (fs : FileSystem) : Except String (Option ResponseFile) :=
  let fileName := fetchModuleFileName t
  match tmpl { emptyFile with EnableStylingCheck := t.EnableStylingCheck } with
  | .error err =>
      .error ("error generating fetch module at " ++ fileName ++ ": " ++ err)
  | .ok rendered =>
      let content := trimSpace rendered
      match fs.stat fileName with
      | .statError e => .error e
      | .notExist =>
          if "" = content then .ok none
          else .ok (some { name := fileName, content := content })
      | .found =>
          match fs.readFile fileName with
          | .error e => .error e
          | .ok originContent =>
              if originContent = content then .ok none
              else .ok (some { name := fileName, content := content })

/-- The File IR with the generator's styling flag copied onto it, as the loop's
field assignment does before the skip test and the rendering. -/
def flagged (t : TypeScriptGRPCGatewayGenerator) (fd : File) : File :=
  { fd with EnableStylingCheck := t.EnableStylingCheck }

/-- The per-file loop of Generate: each analysed File IR first receives the
generator's EnableStylingCheck flag; files not in the file-to-generate set are
skipped; each kept file is rendered through generateFile (a failure, wrapped
with "error generating file", aborts the run) and appended in order, and the
needs-fetch-module flag is accumulated by disjunction over the kept files. -/
def generateLoop (t : TypeScriptGRPCGatewayGenerator) (tmpl : Template)
    (req : CodeGeneratorRequest) :
    List File → Except String (List ResponseFile × Bool)
  | [] => .ok ([], false)
  | fileData :: rest =>
      let fd := flagged t fileData
      if Registry.IsFileToGenerate req fd.Name then
        match generateFile fd tmpl with
        | .error err => .error ("error generating file: " ++ err)
        | .ok generated =>
            match generateLoop t tmpl req rest with
            | .error err => .error err
            | .ok (files, need) =>
                .ok (generated :: files, needsFetchModule fd.Services || need)
      else generateLoop t tmpl req rest

/-- Generate: analyse the request (a failure is wrapped), run the per-file
loop, and if any kept file needed the fetch module, run generateFetchModule
once (a failure is wrapped) and append its entry to the response when it
contributed one. -/
def Generate (t : TypeScriptGRPCGatewayGenerator) (tmpl fetchTmpl : Template)
    (fs : FileSystem) (req : CodeGeneratorRequest) : Except String Response :=
  match t.Registry.Analyse req with
  | .error err => .error ("error analysing proto files: " ++ err)
  | .ok filesData =>
      match generateLoop t tmpl req filesData with
      | .error err => .error err
      | .ok (files, needToGenerateFetchModule) =>
          if needToGenerateFetchModule then
            match generateFetchModule t fetchTmpl fs with
            | .error err => .error ("error generating fetch module: " ++ err)
            | .ok none => .ok { file := files }
            | .ok (some generatedFetch) => .ok { file := files ++ [generatedFetch] }
          else .ok { file := files }

/-- The analysed File IRs the loop keeps: those whose proto file name is in the
compiler's file-to-generate set, in analysed order. -/
def selected (req : CodeGeneratorRequest) (filesData : List File) : List File :=
  filesData.filter fun fd => Registry.IsFileToGenerate req fd.Name

/-- A template whose execution always yields the same text, used to instantiate
theorems at concrete inputs. -/
def constTemplate (s : String) : Template := fun _ => .ok s

/-- A concrete registry for instantiating theorems. -/
def sampleRegistry : Registry :=
  { FetchModuleDirectory := "fm", FetchModuleFilename := "fetch.pb.ts",
    Analyse := fun _ => .ok [] }

/-- A concrete generator for instantiating theorems. -/
def sampleGen : TypeScriptGRPCGatewayGenerator :=
  { Registry := sampleRegistry, EnableStylingCheck := false }

/-- A filesystem on which every path is absent. -/
def absentFS : FileSystem :=
  { stat := fun _ => .notExist, readFile := fun _ => .ok "" }

/-- A filesystem on which every path exists with content "B". -/
def foundFS : FileSystem :=
  { stat := fun _ => .found, readFile := fun _ => .ok "B" }

/-- A concrete non-empty File IR for instantiating theorems. -/
def sampleFile : File :=
  { Name := "a.proto", TSFileName := "a.pb.ts", Messages := ["M"], Enums := [],
    Services := [], EnableStylingCheck := false }

/-- A concrete HTTP-bound method. -/
def httpMethod : Method := { name := "Get", hasHTTPBinding := true }

/-- A concrete service with one HTTP-bound method. -/
def httpService : Service := { name := "S", methods := [httpMethod] }

/-- A concrete File IR holding an HTTP-bound service. -/
def svcFile : File :=
  { Name := "b.proto", TSFileName := "b.pb.ts", Messages := [], Enums := [],
    Services := [httpService], EnableStylingCheck := false }

/-- A registry whose analysis yields the single service file. -/
def svcRegistry : Registry :=
  { FetchModuleDirectory := "fm", FetchModuleFilename := "fetch.pb.ts",
    Analyse := fun _ => .ok [svcFile] }

/-- A generator over svcRegistry. -/
def svcGen : TypeScriptGRPCGatewayGenerator :=
  { Registry := svcRegistry, EnableStylingCheck := false }

/-- The request asking to generate b.proto. -/
def reqB : CodeGeneratorRequest := { fileToGenerate := ["b.proto"] }

/-- The response of the svcGen run on reqB: the per-file entry then the
helper entry. -/
def respB : Response :=
  { file := [{ name := "b.pb.ts", content := "code" },
             { name := "fm/fetch.pb.ts", content := "fetch" }] }

/-- A filesystem whose stat probe always fails with "denied". -/
def errFS : FileSystem :=
  { stat := fun _ => .statError "denied", readFile := fun _ => .ok "" }

/-- A template that always fails with "boom". -/
def failTemplate : Template := fun _ => .error "boom"

/-- A registry whose analysis yields the single message file. -/
def msgRegistry : Registry :=
  { FetchModuleDirectory := "fm", FetchModuleFilename := "fetch.pb.ts",
    Analyse := fun _ => .ok [sampleFile] }

/-- A generator over msgRegistry. -/
def msgGen : TypeScriptGRPCGatewayGenerator :=
  { Registry := msgRegistry, EnableStylingCheck := false }

/-- The request asking to generate a.proto. -/
def reqA : CodeGeneratorRequest := { fileToGenerate := ["a.proto"] }

/-- An option map enabling the styling check. -/
def sampleParams : String → Option String :=
  fun k => if k = "enable_styling_check" then some "true" else none

/-- A registry constructor that always succeeds with sampleRegistry. -/
def sampleNewRegistry : (String → Option String) → Except String Registry :=
  fun _ => .ok sampleRegistry

/-- A registry configured with a different fetch-module directory. -/
def otherRegistry : Registry :=
  { FetchModuleDirectory := "other", FetchModuleFilename := "fetch.pb.ts",
    Analyse := fun _ => .ok [sampleFile] }

/-- A generator over otherRegistry, sharing svcGen's styling flag. -/
def otherGen : TypeScriptGRPCGatewayGenerator :=
  { Registry := otherRegistry, EnableStylingCheck := false }

theorem trimLeftChars_decomp (l : List Char) :
    ∃ pre, (∀ c ∈ pre, c.isWhitespace = true) ∧ l = pre ++ trimLeftChars l ∧
      (∀ c, (trimLeftChars l).head? = some c → c.isWhitespace = false) := by
  induction l with
  | nil => exact ⟨[], by simp, by simp [trimLeftChars], by simp [trimLeftChars]⟩
  | cons c cs ih =>
    by_cases hc : c.isWhitespace = true
    · obtain ⟨pre, hws, heq, hhead⟩ := ih
      refine ⟨c :: pre, ?_, ?_, ?_⟩
      · intro d hd
        rcases List.mem_cons.mp hd with hd | hd
        · rw [hd]; exact hc
        · exact hws d hd
      · simpa [trimLeftChars, hc] using heq
      · simpa [trimLeftChars, hc] using hhead
    · refine ⟨[], by simp, ?_, ?_⟩
      · simp [trimLeftChars, hc]
      · intro d hd
        have hcf : c.isWhitespace = false := by simpa using hc
        simp only [trimLeftChars, hcf, Bool.false_eq_true, if_false, List.head?_cons,
          Option.some.injEq] at hd
        exact hd ▸ hcf

theorem trimSpaceList_decomp (l : List Char) :
    ∃ pre post, (∀ c ∈ pre, c.isWhitespace = true) ∧ (∀ c ∈ post, c.isWhitespace = true) ∧
      l = pre ++ trimSpaceList l ++ post ∧
      (∀ c, (trimSpaceList l).head? = some c → c.isWhitespace = false) ∧
      (∀ c, (trimSpaceList l).getLast? = some c → c.isWhitespace = false) := by
  obtain ⟨pre₁, hws₁, heq₁, hhead₁⟩ := trimLeftChars_decomp l
  obtain ⟨pre₂, hws₂, heq₂, hhead₂⟩ := trimLeftChars_decomp (trimLeftChars l).reverse
  have htsl : trimSpaceList l = (trimLeftChars (trimLeftChars l).reverse).reverse := rfl
  have hm_eq : trimLeftChars l =
      (trimLeftChars (trimLeftChars l).reverse).reverse ++ pre₂.reverse := by
    have h := congrArg List.reverse heq₂
    simpa [List.reverse_append] using h
  refine ⟨pre₁, pre₂.reverse, hws₁, ?_, ?_, ?_, ?_⟩
  · intro c hc
    exact hws₂ c (List.mem_reverse.mp hc)
  · rw [htsl]
    calc l = pre₁ ++ trimLeftChars l := heq₁
    _ = pre₁ ++ ((trimLeftChars (trimLeftChars l).reverse).reverse ++ pre₂.reverse) := by
        rw [← hm_eq]
    _ = pre₁ ++ (trimLeftChars (trimLeftChars l).reverse).reverse ++ pre₂.reverse := by
        rw [List.append_assoc]
  · intro c hc
    rw [htsl, List.head?_reverse] at hc
    have hrne : trimLeftChars (trimLeftChars l).reverse ≠ [] := by
      intro h
      rw [h] at hc
      simp at hc
    have h₁ : (pre₂ ++ trimLeftChars (trimLeftChars l).reverse).getLast? = some c := by
      rw [List.getLast?_append_of_ne_nil pre₂ hrne, hc]
    rw [← heq₂, List.getLast?_reverse] at h₁
    exact hhead₁ c h₁
  · intro c hc
    rw [htsl, List.getLast?_reverse] at hc
    exact hhead₂ c hc

theorem trimSpace_decomp (s : String) :
    ∃ pre post, (∀ c ∈ pre, c.isWhitespace = true) ∧ (∀ c ∈ post, c.isWhitespace = true) ∧
      s.data = pre ++ (trimSpace s).data ++ post ∧
      (∀ c, (trimSpace s).data.head? = some c → c.isWhitespace = false) ∧
      (∀ c, (trimSpace s).data.getLast? = some c → c.isWhitespace = false) :=
  trimSpaceList_decomp s.data

/-- C2: for every File IR marked empty, generateFile emits, for every template
(so without invoking the renderer), exactly the fixed empty-export placeholder
"export default \x7b\x7d" as content, which is not the empty string. -/
theorem C2_empty_placeholder (fileData : File) (hempty : fileData.IsEmpty = true) :
    (∀ tmpl : Template, generateFile fileData tmpl =
      .ok { name := fileData.TSFileName, content := "export default \x7b\x7d" }) ∧
    ("export default \x7b\x7d" : String) ≠ "" := by
  constructor
  · intro tmpl
    have htrim : trimSpace "export default \x7b\x7d\n" = "export default \x7b\x7d" := by decide
    simp [generateFile, hempty, htrim]
  · decide

/-- Witness for C2 at the zero File IR, which is empty. -/
theorem C2_empty_placeholder_witness :
    generateFile emptyFile (constTemplate "anything") =
      .ok { name := "", content := "export default \x7b\x7d" } :=
  (C2_empty_placeholder emptyFile (by decide)).1 (constTemplate "anything")

/-- C8: for a non-empty File IR whose render succeeds, the response entry is
named by the TSFileName and its content is exactly the rendered text with its
leading and trailing whitespace removed: the rendered text decomposes as
whitespace, then the content (itself free of leading and trailing whitespace),
then whitespace. -/
theorem C8_rendered_content_trimmed (fileData : File) (tmpl : Template) (rendered : String)
    (hne : fileData.IsEmpty = false) (hok : tmpl fileData = .ok rendered) :
    ∃ g, generateFile fileData tmpl = .ok g ∧ g.name = fileData.TSFileName ∧
      g.content = trimSpace rendered ∧
      ∃ pre post, (∀ c ∈ pre, c.isWhitespace = true) ∧ (∀ c ∈ post, c.isWhitespace = true) ∧
        rendered.data = pre ++ g.content.data ++ post ∧
        (∀ c, g.content.data.head? = some c → c.isWhitespace = false) ∧
        (∀ c, g.content.data.getLast? = some c → c.isWhitespace = false) := by
  refine ⟨{ name := fileData.TSFileName, content := trimSpace rendered }, ?_, rfl, rfl, ?_⟩
  · simp [generateFile, hne, hok]
  · exact trimSpace_decomp rendered

/-- Witness for C8 at a concrete non-empty File IR and a renderer producing
text with surrounding whitespace. -/
theorem C8_rendered_content_trimmed_witness :
    ∃ g, generateFile sampleFile (constTemplate " x ") = .ok g ∧
      g.name = "a.pb.ts" ∧ g.content = trimSpace " x " := by
  obtain ⟨g, h₁, h₂, h₃, _⟩ :=
    C8_rendered_content_trimmed sampleFile (constTemplate " x ") " x " (by decide) rfl
  exact ⟨g, h₁, h₂, h₃⟩

/-- C10: when the helper's target path does not exist and the freshly rendered,
trimmed helper content is the empty string, generateFetchModule contributes
nothing (the absent file is compared as empty content and the identical-content
branch is taken). -/
theorem C10_absent_blank_omitted (t : TypeScriptGRPCGatewayGenerator)
    (fetchTmpl : Template) (fs : FileSystem) (rendered : String)
    (hrender : fetchTmpl { emptyFile with EnableStylingCheck := t.EnableStylingCheck } =
      .ok rendered)
    (htrim : trimSpace rendered = "")
    (hstat : fs.stat (fetchModuleFileName t) = .notExist) :
    generateFetchModule t fetchTmpl fs = .ok none := by
  simp [generateFetchModule, hrender, hstat, htrim]

/-- Witness for C10 with an all-whitespace fetch template on an absent path. -/
theorem C10_absent_blank_omitted_witness :
    generateFetchModule sampleGen (constTemplate "  \n") absentFS = .ok none :=
  C10_absent_blank_omitted sampleGen (constTemplate "  \n") absentFS "  \n" rfl (by decide) rfl

/-- C3: when a file pre-exists at the helper's target path, generateFetchModule
contributes nothing iff the pre-existing content is byte-for-byte identical to
the freshly rendered trimmed content; any difference yields the helper entry
with the trimmed content. -/
theorem C3_idempotent_helper_write (t : TypeScriptGRPCGatewayGenerator)
    (fetchTmpl : Template) (fs : FileSystem) (rendered origin : String)
    (hrender : fetchTmpl { emptyFile with EnableStylingCheck := t.EnableStylingCheck } =
      .ok rendered)
    (hstat : fs.stat (fetchModuleFileName t) = .found)
    (hread : fs.readFile (fetchModuleFileName t) = .ok origin) :
    (origin = trimSpace rendered → generateFetchModule t fetchTmpl fs = .ok none) ∧
    (origin ≠ trimSpace rendered → generateFetchModule t fetchTmpl fs =
      .ok (some { name := fetchModuleFileName t, content := trimSpace rendered })) := by
  constructor
  · intro heq
    simp [generateFetchModule, hrender, hstat, hread, heq]
  · intro hne
    simp [generateFetchModule, hrender, hstat, hread, hne]

/-- Witness for C3 where the pre-existing content "B" differs from the rendered
content "A", so the helper entry is included. -/
theorem C3_idempotent_helper_write_witness :
    generateFetchModule sampleGen (constTemplate "A") foundFS =
      .ok (some { name := fetchModuleFileName sampleGen, content := trimSpace "A" }) :=
  (C3_idempotent_helper_write sampleGen (constTemplate "A") foundFS "A" "B"
    rfl rfl rfl).2 (by decide)

@[simp]
theorem flagged_Name (t : TypeScriptGRPCGatewayGenerator) (fd : File) :
    (flagged t fd).Name = fd.Name := rfl

@[simp]
theorem flagged_IsEmpty (t : TypeScriptGRPCGatewayGenerator) (fd : File) :
    (flagged t fd).IsEmpty = fd.IsEmpty := rfl

@[simp]
theorem flagged_Services (t : TypeScriptGRPCGatewayGenerator) (fd : File) :
    (flagged t fd).Services = fd.Services := rfl

@[simp]
theorem flagged_styling (t : TypeScriptGRPCGatewayGenerator) (fd : File) :
    (flagged t fd).EnableStylingCheck = t.EnableStylingCheck := rfl

theorem generateFile_congr (fd : File) (tmpl tmpl' : Template)
    (h : tmpl fd = tmpl' fd) : generateFile fd tmpl = generateFile fd tmpl' := by
  simp only [generateFile, h]

theorem generateFile_error_elim (fd : File) (tmpl : Template) (err : String)
    (h : generateFile fd tmpl = .error err) :
    fd.IsEmpty = false ∧ ∃ e, tmpl fd = .error e ∧
      err = "error generating ts file for " ++ fd.Name ++ ": " ++ e := by
  by_cases hne : fd.IsEmpty = true
  · simp [generateFile, hne] at h
  · have hne' : fd.IsEmpty = false := by simpa using hne
    refine ⟨hne', ?_⟩
    cases ht : tmpl fd with
    | error e =>
        simp only [generateFile, hne', Bool.false_eq_true, if_false, ht] at h
        exact ⟨e, rfl, (Except.error.injEq _ _).mp h.symm⟩
    | ok s => simp [generateFile, hne', ht] at h

theorem generateFile_error_intro (fd : File) (tmpl : Template) (e : String)
    (hne : fd.IsEmpty = false) (hf : tmpl fd = .error e) :
    generateFile fd tmpl =
      .error ("error generating ts file for " ++ fd.Name ++ ": " ++ e) := by
  simp [generateFile, hne, hf]

theorem generateLoop_ok_spec (t : TypeScriptGRPCGatewayGenerator) (tmpl : Template)
    (req : CodeGeneratorRequest) :
    ∀ (filesData : List File) (files : List ResponseFile) (need : Bool),
      generateLoop t tmpl req filesData = .ok (files, need) →
      List.Forall₂ (fun fd g => generateFile (flagged t fd) tmpl = .ok g)
        (selected req filesData) files ∧
      need = ((selected req filesData).any fun fd => needsFetchModule fd.Services) := by
  intro filesData
  induction filesData with
  | nil =>
      intro files need h
      simp only [generateLoop, Except.ok.injEq, Prod.mk.injEq] at h
      obtain ⟨h₁, h₂⟩ := h
      subst h₁; subst h₂
      simp [selected]
  | cons fd rest ih =>
      intro files need h
      simp only [generateLoop, flagged_Name] at h
      by_cases hsel : Registry.IsFileToGenerate req fd.Name = true
      · rw [if_pos hsel] at h
        cases hg : generateFile (flagged t fd) tmpl with
        | error err => rw [hg] at h; simp at h
        | ok generated =>
            rw [hg] at h
            cases hrest : generateLoop t tmpl req rest with
            | error err => rw [hrest] at h; simp at h
            | ok pr =>
                obtain ⟨files', need'⟩ := pr
                rw [hrest] at h
                simp only [Except.ok.injEq, Prod.mk.injEq] at h
                obtain ⟨h₁, h₂⟩ := h
                obtain ⟨hf, hn⟩ := ih files' need' hrest
                subst h₁; subst h₂
                constructor
                · have hcons : List.Forall₂
                      (fun fd g => generateFile (flagged t fd) tmpl = Except.ok g)
                      (fd :: selected req rest) (generated :: files') :=
                    List.Forall₂.cons hg hf
                  simpa [selected, List.filter_cons, hsel] using hcons
                · simp [selected, List.filter_cons, hsel] at hn ⊢
                  rw [hn]
      · have hsel' : Registry.IsFileToGenerate req fd.Name = false := by simpa using hsel
        rw [if_neg hsel] at h
        obtain ⟨hf, hn⟩ := ih files need h
        constructor
        · simpa [selected, List.filter_cons, hsel'] using hf
        · simpa [selected, List.filter_cons, hsel'] using hn

theorem generateLoop_congr (t : TypeScriptGRPCGatewayGenerator)
    (tmpl tmpl' : Template) (req : CodeGeneratorRequest)
    (hagree : ∀ fd : File, fd.EnableStylingCheck = t.EnableStylingCheck →
      tmpl fd = tmpl' fd) :
    ∀ filesData : List File,
      generateLoop t tmpl req filesData = generateLoop t tmpl' req filesData := by
  intro filesData
  induction filesData with
  | nil => rfl
  | cons fd rest ih =>
      simp only [generateLoop]
      rw [generateFile_congr (flagged t fd) tmpl tmpl'
        (hagree (flagged t fd) (flagged_styling t fd)), ih]

theorem generateLoop_error_of_fail (t : TypeScriptGRPCGatewayGenerator)
    (tmpl : Template) (req : CodeGeneratorRequest) :
    ∀ (filesData : List File) (fd : File) (e : String), fd ∈ filesData →
      Registry.IsFileToGenerate req fd.Name = true →
      fd.IsEmpty = false →
      tmpl (flagged t fd) = .error e →
      ∃ fd' e', fd' ∈ filesData ∧ Registry.IsFileToGenerate req fd'.Name = true ∧
        fd'.IsEmpty = false ∧ tmpl (flagged t fd') = .error e' ∧
        generateLoop t tmpl req filesData =
          .error ("error generating file: error generating ts file for " ++
            fd'.Name ++ ": " ++ e') := by
  intro filesData
  induction filesData with
  | nil => intro fd e hmem; simp at hmem
  | cons fd₀ rest ih =>
      intro fd e hmem hsel hne hfail
      by_cases hsel₀ : Registry.IsFileToGenerate req fd₀.Name = true
      · cases hg : generateFile (flagged t fd₀) tmpl with
        | error err =>
            obtain ⟨hne₀, e₀, hf₀, herr⟩ := generateFile_error_elim _ tmpl err hg
            refine ⟨fd₀, e₀, List.mem_cons_self _ _, hsel₀, by simpa using hne₀, hf₀, ?_⟩
            simp only [generateLoop, flagged_Name]
            rw [if_pos hsel₀, hg, herr]
            rfl
        | ok generated =>
            have hfd : fd ∈ rest := by
              rcases List.mem_cons.mp hmem with h | h
              · subst h
                have hcontr := generateFile_error_intro (flagged t fd) tmpl e
                  (by simpa using hne) hfail
                rw [hcontr] at hg
                simp at hg
              · exact h
            obtain ⟨fd', e', hmem', hsel', hne', hfail', hloop'⟩ :=
              ih fd e hfd hsel hne hfail
            refine ⟨fd', e', List.mem_cons_of_mem _ hmem', hsel', hne', hfail', ?_⟩
            simp only [generateLoop, flagged_Name]
            rw [if_pos hsel₀, hg, hloop']
      · have hfd : fd ∈ rest := by
          rcases List.mem_cons.mp hmem with h | h
          · subst h; exact absurd hsel hsel₀
          · exact h
        obtain ⟨fd', e', hmem', hsel', hne', hfail', hloop'⟩ := ih fd e hfd hsel hne hfail
        refine ⟨fd', e', List.mem_cons_of_mem _ hmem', hsel', hne', hfail', ?_⟩
        simp only [generateLoop, flagged_Name]
        rw [if_neg hsel₀]
        exact hloop'

theorem Generate_ok_shape (t : TypeScriptGRPCGatewayGenerator)
    (tmpl fetchTmpl : Template) (fs : FileSystem) (req : CodeGeneratorRequest)
    (resp : Response) (h : Generate t tmpl fetchTmpl fs req = .ok resp) :
    ∃ filesData files need, t.Registry.Analyse req = .ok filesData ∧
      generateLoop t tmpl req filesData = .ok (files, need) ∧
      ((need = true ∧ ∃ o, generateFetchModule t fetchTmpl fs = .ok o ∧
          resp.file = files ++ o.toList) ∨
       (need = false ∧ resp.file = files)) := by
  simp only [Generate] at h
  cases hA : t.Registry.Analyse req with
  | error err => simp only [hA] at h; simp at h
  | ok filesData =>
      simp only [hA] at h
      cases hL : generateLoop t tmpl req filesData with
      | error err => simp only [hL] at h; simp at h
      | ok pr =>
          obtain ⟨files, need⟩ := pr
          simp only [hL] at h
          refine ⟨filesData, files, need, rfl, hL, ?_⟩
          cases need with
          | false =>
              rw [if_neg (by simp)] at h
              refine Or.inr ⟨rfl, ?_⟩
              cases h
              rfl
          | true =>
              rw [if_pos rfl] at h
              cases hF : generateFetchModule t fetchTmpl fs with
              | error err => simp only [hF] at h; simp at h
              | ok o =>
                  simp only [hF] at h
                  refine Or.inl ⟨rfl, o, rfl, ?_⟩
                  cases o with
                  | none =>
                      cases h
                      simp
                  | some f =>
                      cases h
                      rfl

theorem generateFetchModule_ok_some (t : TypeScriptGRPCGatewayGenerator)
    (fetchTmpl : Template) (fs : FileSystem) (f : ResponseFile)
    (h : generateFetchModule t fetchTmpl fs = .ok (some f)) :
    f.name = fetchModuleFileName t ∧
    ∃ rendered, fetchTmpl { emptyFile with EnableStylingCheck := t.EnableStylingCheck } =
      .ok rendered ∧ f.content = trimSpace rendered := by
  simp only [generateFetchModule] at h
  cases hr : fetchTmpl { emptyFile with EnableStylingCheck := t.EnableStylingCheck } with
  | error e => simp only [hr] at h; simp at h
  | ok rendered =>
      simp only [hr] at h
      cases hs : fs.stat (fetchModuleFileName t) with
      | statError e => simp only [hs] at h; simp at h
      | notExist =>
          simp only [hs] at h
          by_cases hc : ("" : String) = trimSpace rendered
          · rw [if_pos hc] at h; simp at h
          · rw [if_neg hc] at h
            simp only [Except.ok.injEq, Option.some.injEq] at h
            subst h
            exact ⟨rfl, rendered, rfl, rfl⟩
      | found =>
          simp only [hs] at h
          cases hread : fs.readFile (fetchModuleFileName t) with
          | error e => simp only [hread] at h; simp at h
          | ok origin =>
              simp only [hread] at h
              by_cases hc : origin = trimSpace rendered
              · rw [if_pos hc] at h; simp at h
              · rw [if_neg hc] at h
                simp only [Except.ok.injEq, Option.some.injEq] at h
                subst h
                exact ⟨rfl, rendered, rfl, rfl⟩

/-- C1: in a successful run whose analysis produced filesData, the per-file
loop's needs-fetch-module flag is exactly "some selected File IR has a service
with at least one HTTP-bound method"; when the flag is true the response is the
per-file entries plus the at-most-one entry of a single generateFetchModule
invocation, and when it is false the response is exactly the per-file entries
and the outcome is the same for every fetch template (the helper is never
rendered). -/
theorem C1_helper_singleton (t : TypeScriptGRPCGatewayGenerator)
    (tmpl fetchTmpl : Template) (fs : FileSystem) (req : CodeGeneratorRequest)
    (resp : Response) (filesData : List File)
    (hgen : Generate t tmpl fetchTmpl fs req = .ok resp)
    (hana : t.Registry.Analyse req = .ok filesData) :
    ∃ files,
      generateLoop t tmpl req filesData =
        .ok (files, (selected req filesData).any fun fd => needsFetchModule fd.Services) ∧
      (((selected req filesData).any fun fd => needsFetchModule fd.Services) = true →
        ∃ o, generateFetchModule t fetchTmpl fs = .ok o ∧
          resp.file = files ++ o.toList ∧ o.toList.length ≤ 1) ∧
      (((selected req filesData).any fun fd => needsFetchModule fd.Services) = false →
        resp.file = files ∧
        ∀ fetchTmpl' : Template, Generate t tmpl fetchTmpl' fs req = .ok resp) := by
  obtain ⟨fd₀, files, need, hana', hloop, hshape⟩ :=
    Generate_ok_shape t tmpl fetchTmpl fs req resp hgen
  rw [hana] at hana'
  injection hana' with hfd
  subst hfd
  obtain ⟨-, hneed⟩ := generateLoop_ok_spec t tmpl req filesData files need hloop
  subst hneed
  refine ⟨files, hloop, ?_, ?_⟩
  · intro htrue
    rcases hshape with ⟨-, o, hF, hresp⟩ | ⟨hfalse, -⟩
    · exact ⟨o, hF, hresp, by cases o <;> simp⟩
    · rw [htrue] at hfalse; cases hfalse
  · intro hfalse
    rcases hshape with ⟨htrue, -⟩ | ⟨-, hresp⟩
    · rw [hfalse] at htrue; cases htrue
    · refine ⟨hresp, ?_⟩
      intro fetchTmpl'
      have hresp_eq : resp = { file := files } := by
        cases resp
        simpa using hresp
      rw [hresp_eq]
      simp only [Generate, hana, hloop]
      rw [if_neg (by simp [hfalse])]

/-- Witness for C1 at a run with one selected file holding an HTTP-bound
service: the helper is needed and the response is the per-file entry followed
by exactly one helper entry. -/
theorem C1_helper_singleton_witness :
    ∃ files o, generateFetchModule svcGen (constTemplate "fetch") absentFS = .ok o ∧
      respB.file = files ++ o.toList ∧ o.toList.length ≤ 1 := by
  obtain ⟨files, hloop, htrue, -⟩ :=
    C1_helper_singleton svcGen (constTemplate "code") (constTemplate "fetch") absentFS
      reqB respB [svcFile] rfl rfl
  obtain ⟨o, hF, hresp, hlen⟩ := htrue (by decide)
  exact ⟨files, o, hF, hresp, hlen⟩

/-- C4: with a successful registry construction, New succeeds and its
EnableStylingCheck flag is true iff the option map holds the key
"enable_styling_check" with value exactly the string "true"; moreover the loop
hands the renderer only File IRs carrying that flag's value, so any two
templates agreeing on such File IRs make the loop agree. -/
theorem C4_styling_option (newRegistry : (String → Option String) → Except String Registry)
    (paramsMap : String → Option String) (reg : Registry)
    (hreg : newRegistry paramsMap = .ok reg) :
    ∃ g, New newRegistry paramsMap = .ok g ∧ g.Registry = reg ∧
      (g.EnableStylingCheck = true ↔ paramsMap EnableStylingCheckOption = some "true") ∧
      (∀ (tmpl tmpl' : Template) (req : CodeGeneratorRequest) (filesData : List File),
        (∀ fd : File, fd.EnableStylingCheck = g.EnableStylingCheck → tmpl fd = tmpl' fd) →
        generateLoop g tmpl req filesData = generateLoop g tmpl' req filesData) := by
  cases hk : paramsMap EnableStylingCheckOption with
  | none =>
      refine ⟨{ Registry := reg, EnableStylingCheck := false }, ?_, rfl, ?_, ?_⟩
      · simp only [New, hreg, hk]
      · simp [hk]
      · intro tmpl tmpl' req filesData hagree
        exact generateLoop_congr _ tmpl tmpl' req hagree filesData
  | some v =>
      refine ⟨{ Registry := reg, EnableStylingCheck := v == "true" }, ?_, rfl, ?_, ?_⟩
      · simp only [New, hreg, hk]
      · simp [hk]
      · intro tmpl tmpl' req filesData hagree
        exact generateLoop_congr _ tmpl tmpl' req hagree filesData

/-- Witness for C4 at an option map carrying enable_styling_check = "true". -/
theorem C4_styling_option_witness :
    ∃ g, New sampleNewRegistry sampleParams = .ok g ∧ g.EnableStylingCheck = true := by
  obtain ⟨g, hnew, -, hiff, -⟩ :=
    C4_styling_option sampleNewRegistry sampleParams sampleRegistry rfl
  exact ⟨g, hnew, hiff.mpr (by decide)⟩

/-- C5: when the run needs the fetch helper and its template renders, a stat
failure other than absence, or a failure of the subsequent read, makes Generate
return the wrapped error (no response), while an absent path is not an error
and Generate returns a response. -/
theorem C5_probe_failure_fatal (t : TypeScriptGRPCGatewayGenerator)
    (tmpl fetchTmpl : Template) (fs : FileSystem) (req : CodeGeneratorRequest)
    (filesData : List File) (files : List ResponseFile) (rendered : String)
    (hana : t.Registry.Analyse req = .ok filesData)
    (hloop : generateLoop t tmpl req filesData = .ok (files, true))
    (hrender : fetchTmpl { emptyFile with EnableStylingCheck := t.EnableStylingCheck } =
      .ok rendered) :
    (∀ e, fs.stat (fetchModuleFileName t) = .statError e →
      Generate t tmpl fetchTmpl fs req =
        .error ("error generating fetch module: " ++ e)) ∧
    (∀ e, fs.stat (fetchModuleFileName t) = .found →
      fs.readFile (fetchModuleFileName t) = .error e →
      Generate t tmpl fetchTmpl fs req =
        .error ("error generating fetch module: " ++ e)) ∧
    (fs.stat (fetchModuleFileName t) = .notExist →
      ∃ resp, Generate t tmpl fetchTmpl fs req = .ok resp) := by
  refine ⟨?_, ?_, ?_⟩
  · intro e hstat
    simp only [Generate, hana, hloop]
    rw [if_pos trivial]
    simp [generateFetchModule, hrender, hstat]
  · intro e hstat hread
    simp only [Generate, hana, hloop]
    rw [if_pos trivial]
    simp [generateFetchModule, hrender, hstat, hread]
  · intro hstat
    simp only [Generate, hana, hloop]
    rw [if_pos trivial]
    simp only [generateFetchModule, hrender, hstat]
    by_cases hc : ("" : String) = trimSpace rendered
    · rw [if_pos hc]
      exact ⟨_, rfl⟩
    · rw [if_neg hc]
      exact ⟨_, rfl⟩

/-- Witness for C5 at a run needing the helper on a filesystem whose stat
probe fails with "denied". -/
theorem C5_probe_failure_fatal_witness :
    Generate svcGen (constTemplate "code") (constTemplate "fetch") errFS reqB =
      .error ("error generating fetch module: " ++ "denied") :=
  (C5_probe_failure_fatal svcGen (constTemplate "code") (constTemplate "fetch") errFS reqB
    [svcFile] [{ name := "b.pb.ts", content := "code" }] "fetch"
    rfl rfl rfl).1 "denied" rfl

/-- C6: in a successful run the response is the per-proto entries followed by
at most one helper entry, and the per-proto entries correspond one-to-one, in
analysed order, with exactly those analysed File IRs whose proto name is in the
compiler's file-to-generate set. -/
theorem C6_selected_files_exact (t : TypeScriptGRPCGatewayGenerator)
    (tmpl fetchTmpl : Template) (fs : FileSystem) (req : CodeGeneratorRequest)
    (resp : Response) (filesData : List File)
    (hgen : Generate t tmpl fetchTmpl fs req = .ok resp)
    (hana : t.Registry.Analyse req = .ok filesData) :
    ∃ files helperPart, resp.file = files ++ helperPart ∧ helperPart.length ≤ 1 ∧
      List.Forall₂ (fun fd g => generateFile (flagged t fd) tmpl = .ok g)
        (filesData.filter fun fd => req.fileToGenerate.contains fd.Name) files := by
  obtain ⟨fd₀, files, need, hana', hloop, hshape⟩ :=
    Generate_ok_shape t tmpl fetchTmpl fs req resp hgen
  rw [hana] at hana'
  injection hana' with hfd
  subst hfd
  obtain ⟨hfa, -⟩ := generateLoop_ok_spec t tmpl req filesData files need hloop
  rcases hshape with ⟨-, o, -, hresp⟩ | ⟨-, hresp⟩
  · exact ⟨files, o.toList, hresp, by cases o <;> simp, hfa⟩
  · exact ⟨files, [], by simpa using hresp, by simp, hfa⟩

/-- Witness for C6 at a run with one analysed file that is also to generate. -/
theorem C6_selected_files_exact_witness :
    ∃ files helperPart, respB.file = files ++ helperPart ∧ helperPart.length ≤ 1 ∧
      List.Forall₂ (fun fd g => generateFile (flagged svcGen fd) (constTemplate "code") = .ok g)
        ([svcFile].filter fun fd => reqB.fileToGenerate.contains fd.Name) files :=
  C6_selected_files_exact svcGen (constTemplate "code") (constTemplate "fetch") absentFS
    reqB respB [svcFile] rfl rfl

/-- C7: if the renderer fails on any selected, non-empty analysed File IR, the
run as a whole fails: Generate returns the error of the first such failing
file, wrapped with the offending file's name, and no response. -/
theorem C7_render_failure_aborts (t : TypeScriptGRPCGatewayGenerator)
    (tmpl fetchTmpl : Template) (fs : FileSystem) (req : CodeGeneratorRequest)
    (filesData : List File) (fd : File) (e : String)
    (hana : t.Registry.Analyse req = .ok filesData)
    (hmem : fd ∈ filesData)
    (hsel : req.fileToGenerate.contains fd.Name = true)
    (hne : fd.IsEmpty = false)
    (hfail : tmpl (flagged t fd) = .error e) :
    ∃ fd' e', fd' ∈ filesData ∧ req.fileToGenerate.contains fd'.Name = true ∧
      fd'.IsEmpty = false ∧ tmpl (flagged t fd') = .error e' ∧
      Generate t tmpl fetchTmpl fs req =
        .error ("error generating file: error generating ts file for " ++
          fd'.Name ++ ": " ++ e') := by
  obtain ⟨fd', e', hmem', hsel', hne', hfail', hloop⟩ :=
    generateLoop_error_of_fail t tmpl req filesData fd e hmem hsel hne hfail
  refine ⟨fd', e', hmem', hsel', hne', hfail', ?_⟩
  simp only [Generate, hana, hloop]

/-- Witness for C7 at a run whose only file's renderer fails with "boom". -/
theorem C7_render_failure_aborts_witness :
    ∃ fd' e', fd' ∈ [sampleFile] ∧ reqA.fileToGenerate.contains fd'.Name = true ∧
      fd'.IsEmpty = false ∧ failTemplate (flagged msgGen fd') = .error e' ∧
      Generate msgGen failTemplate (constTemplate "fetch") absentFS reqA =
        .error ("error generating file: error generating ts file for " ++
          fd'.Name ++ ": " ++ e') :=
  C7_render_failure_aborts msgGen failTemplate (constTemplate "fetch") absentFS reqA
    [sampleFile] sampleFile "boom" rfl (by simp) (by decide) (by decide) rfl

/-- C9: the fetch helper's freshly rendered content depends only on the fetch
template and the EnableStylingCheck option: two generators with the same flag,
over any registries (hence any analysed File IRs) and any filesystems, produce
helper entries with identical content, and the entry's path is the
slash-normalised join of the configured directory and filename. -/
theorem C9_helper_content_independent (t t' : TypeScriptGRPCGatewayGenerator)
    (fetchTmpl : Template) (fs fs' : FileSystem) (f f' : ResponseFile)
    (hflag : t.EnableStylingCheck = t'.EnableStylingCheck)
    (h : generateFetchModule t fetchTmpl fs = .ok (some f))
    (h' : generateFetchModule t' fetchTmpl fs' = .ok (some f')) :
    f.content = f'.content ∧
    f.name = filepathToSlash (filepathJoin t.Registry.FetchModuleDirectory
      t.Registry.FetchModuleFilename) := by
  obtain ⟨hn, rendered, hr, hct⟩ := generateFetchModule_ok_some t fetchTmpl fs f h
  obtain ⟨hn', rendered', hr', hct'⟩ := generateFetchModule_ok_some t' fetchTmpl fs' f' h'
  have harg : ({ emptyFile with EnableStylingCheck := t.EnableStylingCheck } : File) =
      { emptyFile with EnableStylingCheck := t'.EnableStylingCheck } := by rw [hflag]
  rw [harg, hr'] at hr
  have hrr : rendered' = rendered := by simpa using hr
  refine ⟨?_, hn⟩
  rw [hct, hct', hrr]

/-- Witness for C9 at two generators sharing the flag but with different
registries and filesystems: same helper content, path from the configuration. -/
theorem C9_helper_content_independent_witness :
    ({ name := "fm/fetch.pb.ts", content := "fetch" } : ResponseFile).content =
      ({ name := "other/fetch.pb.ts", content := "fetch" } : ResponseFile).content ∧
    ({ name := "fm/fetch.pb.ts", content := "fetch" } : ResponseFile).name =
      filepathToSlash (filepathJoin "fm" "fetch.pb.ts") :=
  C9_helper_content_independent svcGen otherGen (constTemplate "fetch") absentFS foundFS
    { name := "fm/fetch.pb.ts", content := "fetch" }
    { name := "other/fetch.pb.ts", content := "fetch" }
    rfl rfl rfl

end ProtocGenGrpcGatewayTs
